import Mathlib

/-!
Verification of the budget-overview proration logic
(src/components/Budget/BudgetOverview.tsx).

The component's pure calculations are embedded over exact rationals:
JS numeric literals such as 4.33 and 30.44 become the rationals 433/100
and 3044/100, `Date.getTime()` values become integer milliseconds,
`Math.ceil` becomes `Int.ceil` on ℚ.  A collection that may be
`undefined` becomes an `Option (List _)`; the period utility
`getCurrentMonthlyPeriod`, which may throw, is passed in as an
`Except Unit Period` (ok = the period it returned, error = it threw).
-/

namespace BudgetOverview

/-- A bill record as read from the store (fields used by the component). -/
structure Bill where
  id : String
  name : String
  amount : ℚ
  frequency : String
deriving Repr, DecidableEq

/-- A debt record (fields used by the component). -/
structure Debt where
  id : String
  currentBalance : ℚ
deriving Repr, DecidableEq

/-- A budget record (fields used by the selection logic). -/
structure Budget where
  id : String
  name : String
deriving Repr, DecidableEq

/-- The current billing period: `startDate.getTime()` / `endDate.getTime()`
in integer milliseconds. -/
structure Period where
  startTime : ℤ
  endTime : ℤ
deriving Repr, DecidableEq

/-- A budget category as consumed by the rendering loop.
`periodAllocatedAmount` is `none` when the category is not period-adjusted
(the `(category as PeriodAdjustedBudgetCategory).periodAllocatedAmount`
access yields `undefined`). -/
structure Category where
  id : String
  name : String
  allocatedAmount : ℚ
  spentAmount : ℚ
  periodAllocatedAmount : Option ℚ
deriving Repr, DecidableEq

/-- `1000 * 60 * 60 * 24` from line 78. -/
def msPerDay : ℤ := 1000 * 60 * 60 * 24

/-- `averageMonthDays = 30.44` (line 79). -/
def averageMonthDays : ℚ := 3044 / 100

/-- `periodDays = Math.ceil((end - start) / (1000*60*60*24)) + 1` (line 78). -/
def periodDays (p : Period) : ℤ :=
  ⌈((p.endTime - p.startTime : ℤ) : ℚ) / (msPerDay : ℚ)⌉ + 1

/-- `periodRatio = periodDays / averageMonthDays` (line 80). -/
def periodRatio (p : Period) : ℚ :=
  (periodDays p : ℚ) / averageMonthDays

/-- The `switch (bill.frequency)` of the aggregate calculation
(lines 85-100): default case yields 0. -/
def monthlyAmountAggregate (b : Bill) : ℚ :=
  if b.frequency = "monthly" then b.amount
  else if b.frequency = "weekly" then b.amount * (433 / 100)
  else if b.frequency = "quarterly" then b.amount / 3
  else if b.frequency = "yearly" then b.amount / 12
  else 0

/-- `calculateBillsForCurrentPeriod` (lines 73-117).  `bills` is the live
query result (`none` = undefined); `period` is what
`getCurrentMonthlyPeriod` did (ok = returned, error = threw, entering the
catch block's fallback reduce of lines 107-115). -/
def calculateBillsForCurrentPeriod
    (bills : Option (List Bill)) (period : Except Unit Period) : ℚ :=
  match bills with
  | none => 0
  | some bs =>
    if bs.length = 0 then 0
    else
      match period with
      | Except.ok p =>
        bs.foldl (fun sum b => sum + monthlyAmountAggregate b * periodRatio p) 0
      | Except.error _ =>
        bs.foldl (fun sum b =>
          if b.frequency = "monthly" then sum + b.amount
          else if b.frequency = "weekly" then sum + b.amount * (433 / 100)
          else if b.frequency = "quarterly" then sum + b.amount / 3
          else if b.frequency = "yearly" then sum + b.amount / 12
          else sum) 0

/-- The per-bill proration of the display list (lines 317-336): same
arithmetic as the aggregate, except the switch default is `bill.amount`
(line 330) and the catch fallback is the raw `bill.amount` (line 335). -/
def perBillPeriodAmount (b : Bill) (period : Except Unit Period) : ℚ :=
  match period with
  | Except.ok p =>
    let monthlyAmount : ℚ :=
      if b.frequency = "monthly" then b.amount
      else if b.frequency = "weekly" then b.amount * (433 / 100)
      else if b.frequency = "quarterly" then b.amount / 3
      else if b.frequency = "yearly" then b.amount / 12
      else b.amount
    monthlyAmount * periodRatio p
  | Except.error _ => b.amount

/-- `calculateTotalDebt` (lines 69-71): `debts?.reduce(..., 0) || 0`.
A `0` sum is falsy in JS but `|| 0` then yields `0` again, so the
`Option.getD`-style translation below is exact. -/
def calculateTotalDebt (debts : Option (List Debt)) : ℚ :=
  match debts with
  | none => 0
  | some ds => ds.foldl (fun sum d => sum + d.currentBalance) 0

/-- The select `onChange` handler (lines 157-160):
`budgets.find(b => b.id === value)` then `setSelectedBudget(budget || null)`. -/
def selectBudgetById (budgets : List Budget) (chosenId : String) : Option Budget :=
  budgets.find? (fun b => b.id == chosenId)

/-- The auto-select effect (lines 43-47): when the budget list exists,
is non-empty and nothing is selected, select `budgets[0]`; otherwise the
selection is left as it was. -/
def autoSelectEffect
    (budgets : Option (List Budget)) (selected : Option Budget) : Option Budget :=
  match budgets with
  | none => selected
  | some bs =>
    if 0 < bs.length ∧ selected = none then bs.head? else selected

/-- `budgetAmount = (category as ...).periodAllocatedAmount || category.allocatedAmount`
(line 261).  JS `||` falls back both when the left side is `undefined`
(the `none` branch) and when it is the falsy number `0` (the inner `if`). -/
def budgetAmount (c : Category) : ℚ :=
  match c.periodAllocatedAmount with
  | some v => if v = 0 then c.allocatedAmount else v
  | none => c.allocatedAmount

/-- `percentage = budgetAmount > 0 ? spentAmount / budgetAmount * 100 : 0`
(lines 262-264). -/
def percentage (c : Category) : ℚ :=
  if 0 < budgetAmount c then c.spentAmount / budgetAmount c * 100 else 0

/-- `isOverBudget = percentage > 100` (line 265). -/
def isOverBudget (c : Category) : Bool :=
  decide (percentage c > 100)

/-- The progress bar width `Math.min(percentage, 100)` (line 281). -/
def barWidth (c : Category) : ℚ :=
  min (percentage c) 100

/-- Folding `fun s x => s + f x` over a list from `init` is `init` plus the
sum of the images: the shape of every `reduce` in the component. -/
theorem foldl_add_map_sum {α : Type} (f : α → ℚ) (xs : List α) (init : ℚ) :
    xs.foldl (fun s x => s + f x) init = init + (xs.map f).sum := by
  induction xs generalizing init with
  | nil => simp
  | cons x rest ih => simp [List.foldl, ih]; ring

/-- The catch-block fallback reduce step (lines 108-114) adds exactly the
monthly-equivalent amount of the aggregate switch. -/
theorem fallbackStep_eq (s : ℚ) (b : Bill) :
    (if b.frequency = "monthly" then s + b.amount
     else if b.frequency = "weekly" then s + b.amount * (433 / 100)
     else if b.frequency = "quarterly" then s + b.amount / 3
     else if b.frequency = "yearly" then s + b.amount / 12
     else s) = s + monthlyAmountAggregate b := by
  unfold monthlyAmountAggregate
  split_ifs <;> ring

/-- `periodRatio` written out as the spec's formula
`(ceil((end − start) / dayMs) + 1) / 30.44`. -/
theorem periodRatio_eq (p : Period) :
    periodRatio p =
      ((⌈((p.endTime - p.startTime : ℤ) : ℚ) / 86400000⌉ + 1 : ℤ) : ℚ) / (3044 / 100) := by
  norm_num [periodRatio, periodDays, msPerDay, averageMonthDays]

/-- C1: when period computation succeeds, the aggregate bills-for-current-period
total gives every bill a contribution of
`monthlyEquivalent * ((ceil((endDate − startDate) in days) + 1) / 30.44)`,
and a weekly bill of amount 100 over a 7-day period (inclusive day count 7)
contributes approximately 99.6 (within 0.1). -/
theorem C1_aggregate_period_proration :
    (∀ (bs : List Bill) (p : Period),
      calculateBillsForCurrentPeriod (some bs) (Except.ok p) =
        (bs.map (fun b => monthlyAmountAggregate b *
          (((⌈((p.endTime - p.startTime : ℤ) : ℚ) / 86400000⌉ + 1 : ℤ) : ℚ) / (3044 / 100)))).sum)
    ∧ |calculateBillsForCurrentPeriod (some [⟨"b1", "rent", 100, "weekly"⟩])
         (Except.ok ⟨0, 518400000⟩) - 996 / 10| < 1 / 10 := by
  have key : ∀ (bs : List Bill) (p : Period),
      calculateBillsForCurrentPeriod (some bs) (Except.ok p) =
        (bs.map (fun b => monthlyAmountAggregate b *
          (((⌈((p.endTime - p.startTime : ℤ) : ℚ) / 86400000⌉ + 1 : ℤ) : ℚ) / (3044 / 100)))).sum := by
    intro bs p
    rcases bs with _ | ⟨b, rest⟩
    · simp [calculateBillsForCurrentPeriod]
    · simp only [calculateBillsForCurrentPeriod, List.length_cons]
      rw [if_neg (by omega)]
      rw [foldl_add_map_sum (fun b => monthlyAmountAggregate b * periodRatio p)]
      simp only [periodRatio_eq, zero_add]
  refine ⟨key, ?_⟩
  rw [key]
  simp only [List.map, List.sum_cons, List.sum_nil]
  rw [show monthlyAmountAggregate ⟨"b1", "rent", 100, "weekly"⟩ = 433 by
    unfold monthlyAmountAggregate
    rw [if_neg (by decide), if_pos (by decide)]
    norm_num]
  norm_num [abs_lt]

/-- C2: in the aggregate period-bills calculation each bill's monthly
equivalent is: the amount for `monthly`, amount × 4.33 for `weekly`,
amount / 3 for `quarterly`, amount / 12 for `yearly`, and 0 for any other
frequency; and a single bill's aggregate contribution is that monthly
equivalent scaled by the period ratio. -/
theorem C2_monthly_equivalents (b : Bill) :
    (∀ p : Period, calculateBillsForCurrentPeriod (some [b]) (Except.ok p) =
      monthlyAmountAggregate b * periodRatio p) ∧
    (b.frequency = "monthly" → monthlyAmountAggregate b = b.amount) ∧
    (b.frequency = "weekly" → monthlyAmountAggregate b = b.amount * (433 / 100)) ∧
    (b.frequency = "quarterly" → monthlyAmountAggregate b = b.amount / 3) ∧
    (b.frequency = "yearly" → monthlyAmountAggregate b = b.amount / 12) ∧
    (b.frequency ≠ "monthly" → b.frequency ≠ "weekly" → b.frequency ≠ "quarterly" →
      b.frequency ≠ "yearly" → monthlyAmountAggregate b = 0) := by
  refine ⟨?_, ?_, ?_, ?_, ?_, ?_⟩
  · intro p
    unfold calculateBillsForCurrentPeriod
    simp [foldl_add_map_sum]
  all_goals intro h
  · simp [monthlyAmountAggregate, h]
  · simp [monthlyAmountAggregate, h]
  · simp [monthlyAmountAggregate, h]
  · simp [monthlyAmountAggregate, h]
  · intro h2 h3 h4
    simp [monthlyAmountAggregate, h, h2, h3, h4]

/-- C2 at concrete bills: a weekly bill of 100 normalizes to 433, and an
unrecognized frequency normalizes to 0. -/
theorem C2_witness :
    monthlyAmountAggregate ⟨"a", "a", 100, "weekly"⟩ = 433 ∧
    monthlyAmountAggregate ⟨"d", "d", 60, "daily"⟩ = 0 := by
  constructor
  · rw [(C2_monthly_equivalents ⟨"a", "a", 100, "weekly"⟩).2.2.1 rfl]
    norm_num
  · exact (C2_monthly_equivalents ⟨"d", "d", 60, "daily"⟩).2.2.2.2.2
      (by decide) (by decide) (by decide) (by decide)

/-- C3 (amended): if the period computation throws, the aggregate total
falls back to the sum of the unscaled monthly equivalents and each
per-bill display entry falls back to that bill's raw amount; the two
fallbacks differ for any bill of NONZERO amount whose frequency is not
`monthly` (at amount 0 they coincide, so the claim's unconditional
"differ" clause needed the nonzero-amount proviso). -/
theorem C3_fallback_divergence (bs : List Bill) (b : Bill) :
    calculateBillsForCurrentPeriod (some bs) (Except.error ()) =
      (bs.map monthlyAmountAggregate).sum ∧
    perBillPeriodAmount b (Except.error ()) = b.amount ∧
    (b.amount ≠ 0 → b.frequency ≠ "monthly" →
      calculateBillsForCurrentPeriod (some [b]) (Except.error ()) ≠
        perBillPeriodAmount b (Except.error ())) := by
  have hfun : (fun (sum : ℚ) (b : Bill) =>
      if b.frequency = "monthly" then sum + b.amount
      else if b.frequency = "weekly" then sum + b.amount * (433 / 100)
      else if b.frequency = "quarterly" then sum + b.amount / 3
      else if b.frequency = "yearly" then sum + b.amount / 12
      else sum) = fun s b => s + monthlyAmountAggregate b := by
    funext s b
    exact fallbackStep_eq s b
  have hagg : ∀ cs : List Bill,
      calculateBillsForCurrentPeriod (some cs) (Except.error ()) =
        (cs.map monthlyAmountAggregate).sum := by
    intro cs
    rcases cs with _ | ⟨c, rest⟩
    · simp [calculateBillsForCurrentPeriod]
    · simp only [calculateBillsForCurrentPeriod, List.length_cons]
      rw [if_neg (by omega)]
      rw [hfun, foldl_add_map_sum monthlyAmountAggregate]
      ring
  refine ⟨hagg bs, rfl, ?_⟩
  intro ha hm
  rw [hagg [b]]
  have hper : perBillPeriodAmount b (Except.error ()) = b.amount := rfl
  rw [hper]
  simp only [List.map, List.sum_cons, List.sum_nil, add_zero]
  unfold monthlyAmountAggregate
  rw [if_neg hm]
  by_cases hw : b.frequency = "weekly"
  · rw [if_pos hw]; intro h; exact ha (by linarith)
  · rw [if_neg hw]
    by_cases hq : b.frequency = "quarterly"
    · rw [if_pos hq]; intro h; exact ha (by linarith)
    · rw [if_neg hq]
      by_cases hy : b.frequency = "yearly"
      · rw [if_pos hy]; intro h; exact ha (by linarith)
      · rw [if_neg hy]; intro h; exact ha h.symm

/-- C3 at a concrete bill: for a weekly bill of 100 the two fallbacks
(433 aggregate vs 100 per-bill) really differ. -/
theorem C3_witness :
    calculateBillsForCurrentPeriod (some [⟨"w", "w", 100, "weekly"⟩]) (Except.error ()) ≠
      perBillPeriodAmount ⟨"w", "w", 100, "weekly"⟩ (Except.error ()) :=
  (C3_fallback_divergence [] ⟨"w", "w", 100, "weekly"⟩).2.2 (by norm_num) (by decide)

/-- C3 counterexample to the claim as stated: the weekly bill of amount 0
has a non-`monthly` frequency, yet its aggregate fallback and its per-bill
fallback are equal (both 0), so the fallbacks do NOT differ for every bill
whose frequency is not monthly. -/
theorem C3_counterexample :
    calculateBillsForCurrentPeriod (some [⟨"z", "z", 0, "weekly"⟩]) (Except.error ()) =
      perBillPeriodAmount ⟨"z", "z", 0, "weekly"⟩ (Except.error ()) ∧
    (Bill.mk "z" "z" 0 "weekly").frequency ≠ "monthly" := by
  constructor
  · have hz : calculateBillsForCurrentPeriod (some [⟨"z", "z", 0, "weekly"⟩])
        (Except.error ()) = 0 := by
      simp only [calculateBillsForCurrentPeriod, List.length_cons]
      rw [if_neg (by omega)]
      simp only [List.foldl]
      rw [if_neg (by decide), if_pos (by decide)]
      norm_num
    rw [hz]
    rfl
  · decide

/-- C4 counterexample to the claim as stated: a category whose
`periodAllocatedAmount` is present and equal to 0 does NOT use it as the
budget amount — the JS `||` falls through to `allocatedAmount` (50 here). -/
theorem C4_counterexample :
    (Category.mk "c" "c" 50 20 (some 0)).periodAllocatedAmount = some 0 ∧
    budgetAmount ⟨"c", "c", 50, 20, some 0⟩ ≠ 0 := by
  refine ⟨rfl, ?_⟩
  norm_num [budgetAmount]

/-- C4 (amended): the budget amount is `periodAllocatedAmount` when that is
present AND nonzero; it is `allocatedAmount` when `periodAllocatedAmount`
is absent OR present but 0 (JS `||` treats the number 0 as absent). -/
theorem C4_budget_amount (c : Category) (v : ℚ) :
    (c.periodAllocatedAmount = some v → v ≠ 0 → budgetAmount c = v) ∧
    (c.periodAllocatedAmount = none → budgetAmount c = c.allocatedAmount) ∧
    (c.periodAllocatedAmount = some 0 → budgetAmount c = c.allocatedAmount) := by
  refine ⟨?_, ?_, ?_⟩ <;> intro h
  · intro hv; simp [budgetAmount, h, hv]
  · simp [budgetAmount, h]
  · simp [budgetAmount, h]

/-- C4 at concrete categories: present nonzero 30 is used; absent and
present-zero fall back to the allocated 50. -/
theorem C4_witness :
    budgetAmount ⟨"a", "a", 50, 20, some 30⟩ = 30 ∧
    budgetAmount ⟨"b", "b", 50, 20, none⟩ = 50 ∧
    budgetAmount ⟨"c2", "c2", 50, 20, some 0⟩ = 50 :=
  ⟨(C4_budget_amount ⟨"a", "a", 50, 20, some 30⟩ 30).1 rfl (by norm_num),
   (C4_budget_amount ⟨"b", "b", 50, 20, none⟩ 0).2.1 rfl,
   (C4_budget_amount ⟨"c2", "c2", 50, 20, some 0⟩ 0).2.2 rfl⟩

/-- C5: the category percentage is `spent / amount * 100` when the budget
amount is positive and 0 otherwise (no division by zero), a non-positive
amount also gives `isOverBudget = false`, `isOverBudget` holds exactly when
the percentage exceeds 100, and the bar width is `min(percentage, 100)`. -/
theorem C5_percentage_guard (c : Category) :
    (0 < budgetAmount c → percentage c = c.spentAmount / budgetAmount c * 100) ∧
    (¬ 0 < budgetAmount c → percentage c = 0 ∧ isOverBudget c = false) ∧
    (isOverBudget c = true ↔ percentage c > 100) ∧
    barWidth c = min (percentage c) 100 := by
  refine ⟨?_, ?_, ?_, rfl⟩
  · intro h; simp [percentage, h]
  · intro h
    have hp : percentage c = 0 := by simp [percentage, h]
    refine ⟨hp, ?_⟩
    simp only [isOverBudget, hp]
    norm_num
  · simp [isOverBudget]

/-- C5 at concrete categories: allocated 0 with spent 50 gives percentage 0
and not over budget; allocated 100 with spent 150 gives percentage 150,
over budget, and a bar width capped at 100. -/
theorem C5_witness :
    percentage ⟨"a", "a", 0, 50, none⟩ = 0 ∧
    isOverBudget ⟨"a", "a", 0, 50, none⟩ = false ∧
    percentage ⟨"b", "b", 100, 150, none⟩ = 150 ∧
    isOverBudget ⟨"b", "b", 100, 150, none⟩ = true ∧
    barWidth ⟨"b", "b", 100, 150, none⟩ = 100 := by
  have h0 := (C5_percentage_guard ⟨"a", "a", 0, 50, none⟩).2.1 (by norm_num [budgetAmount])
  have h1 := (C5_percentage_guard ⟨"b", "b", 100, 150, none⟩).1 (by norm_num [budgetAmount])
  have h150 : percentage ⟨"b", "b", 100, 150, none⟩ = 150 := by
    rw [h1]; norm_num [budgetAmount]
  refine ⟨h0.1, h0.2, h150, ?_, ?_⟩
  · exact (C5_percentage_guard ⟨"b", "b", 100, 150, none⟩).2.2.1.mpr (by rw [h150]; norm_num)
  · rw [(C5_percentage_guard ⟨"b", "b", 100, 150, none⟩).2.2.2, h150]
    norm_num

/-- C6: the aggregate period-bills total is 0 both when the bill collection
is absent (undefined) and when it is the empty list, whatever the period
computation did — a normal result, not an error. -/
theorem C6_empty_bills (period : Except Unit Period) :
    calculateBillsForCurrentPeriod none period = 0 ∧
    calculateBillsForCurrentPeriod (some []) period = 0 := by
  cases period <;> simp [calculateBillsForCurrentPeriod]

/-- C7: the total debt is the sum of `currentBalance` over the queried
active-status debt list, and 0 when the collection is absent or empty. -/
theorem C7_total_debt (ds : List Debt) :
    calculateTotalDebt (some ds) = (ds.map Debt.currentBalance).sum ∧
    calculateTotalDebt none = 0 ∧
    calculateTotalDebt (some []) = 0 := by
  refine ⟨?_, rfl, rfl⟩
  simp only [calculateTotalDebt]
  rw [foldl_add_map_sum Debt.currentBalance]
  ring

/-- C8: choosing a budget identifier selects a budget of the list bearing
that id when one exists (the handler's `find`), and yields `none` — the
`|| null` branch, no crash — when no budget of the list has that id. -/
theorem C8_select_by_id (budgets : List Budget) (chosenId : String) :
    ((∀ b ∈ budgets, b.id ≠ chosenId) → selectBudgetById budgets chosenId = none) ∧
    (∀ b, selectBudgetById budgets chosenId = some b → b ∈ budgets ∧ b.id = chosenId) ∧
    ((∃ b ∈ budgets, b.id = chosenId) →
      ∃ b, selectBudgetById budgets chosenId = some b ∧ b ∈ budgets ∧ b.id = chosenId) := by
  refine ⟨?_, ?_, ?_⟩
  · intro h
    rw [selectBudgetById, List.find?_eq_none]
    intro b hb
    simpa using h b hb
  · intro b hb
    exact ⟨List.mem_of_find?_eq_some hb, by simpa using List.find?_some hb⟩
  · rintro ⟨b, hb, hid⟩
    have hs : (budgets.find? (fun b => b.id == chosenId)).isSome := by
      rw [List.find?_isSome]
      exact ⟨b, hb, by simpa using hid⟩
    rcases Option.isSome_iff_exists.mp hs with ⟨b2, hb2⟩
    exact ⟨b2, hb2, List.mem_of_find?_eq_some hb2, by simpa using List.find?_some hb2⟩

/-- C8 at concrete lists: a nonexistent id yields `none`, an existing id
yields a matching member of the list. -/
theorem C8_witness :
    selectBudgetById [⟨"b1", "Main"⟩] "nope" = none ∧
    (∃ b, selectBudgetById [⟨"b1", "Main"⟩, ⟨"b2", "Other"⟩] "b2" = some b ∧
      b ∈ [Budget.mk "b1" "Main", Budget.mk "b2" "Other"] ∧ b.id = "b2") :=
  ⟨(C8_select_by_id [⟨"b1", "Main"⟩] "nope").1 (by decide),
   (C8_select_by_id [⟨"b1", "Main"⟩, ⟨"b2", "Other"⟩] "b2").2.2
     ⟨⟨"b2", "Other"⟩, by decide, rfl⟩⟩

/-- C9: receiving a non-empty budget list while nothing is selected selects
the first element of the list; when a budget is already selected the effect
leaves the selection unchanged whatever list arrives. -/
theorem C9_auto_select (b : Budget) (rest : List Budget)
    (budgets : Option (List Budget)) (sel : Budget) :
    autoSelectEffect (some (b :: rest)) none = some b ∧
    autoSelectEffect budgets (some sel) = some sel := by
  constructor
  · simp [autoSelectEffect]
  · cases budgets with
    | none => rfl
    | some bs => simp [autoSelectEffect]

/-- C10: when the period computation succeeds, for every bill whose
frequency is one of the four recognized values the per-bill display
proration equals that bill's contribution to the aggregate total (the two
switch statements agree away from their differing default cases). -/
theorem C10_proration_agreement (b : Bill) (p : Period)
    (h : b.frequency = "monthly" ∨ b.frequency = "weekly" ∨
         b.frequency = "quarterly" ∨ b.frequency = "yearly") :
    perBillPeriodAmount b (Except.ok p) =
      calculateBillsForCurrentPeriod (some [b]) (Except.ok p) := by
  have hsing : calculateBillsForCurrentPeriod (some [b]) (Except.ok p) =
      monthlyAmountAggregate b * periodRatio p := by
    simp only [calculateBillsForCurrentPeriod, List.length_cons]
    rw [if_neg (by omega)]
    simp [List.foldl]
  rw [hsing]
  unfold perBillPeriodAmount monthlyAmountAggregate
  rcases h with h | h | h | h <;> rw [h]
  · rw [if_pos rfl, if_pos rfl]
  · rw [if_neg (by decide), if_pos rfl, if_neg (by decide), if_pos rfl]
  · rw [if_neg (by decide), if_neg (by decide), if_pos rfl,
        if_neg (by decide), if_neg (by decide), if_pos rfl]
  · rw [if_neg (by decide), if_neg (by decide), if_neg (by decide), if_pos rfl,
        if_neg (by decide), if_neg (by decide), if_neg (by decide), if_pos rfl]

/-- C10 at a concrete weekly bill and 7-day period: both computations give
the same prorated amount. -/
theorem C10_witness :
    perBillPeriodAmount ⟨"a", "a", 100, "weekly"⟩ (Except.ok ⟨0, 518400000⟩) =
      calculateBillsForCurrentPeriod (some [⟨"a", "a", 100, "weekly"⟩])
        (Except.ok ⟨0, 518400000⟩) :=
  C10_proration_agreement ⟨"a", "a", 100, "weekly"⟩ ⟨0, 518400000⟩ (Or.inr (Or.inl rfl))

end BudgetOverview
